import Mathlib

/-!
Shallow embedding of `Real_world_examples/Change_filmstrips.ipynb` (dea-notebooks).

The notebook consists of three code stages:
  * a parameter-staging cell assigning seven bindings
    (`output_name`, `time_range`, `time_step`, `tide_range`, `resolution`,
    `max_cloud`, `ls7_slc_off`);
  * one call `run_filmstrip_app(output_name, time_range, time_step, tide_range,
    resolution, max_cloud, ls7_slc_off)` whose result is bound to `output_data`;
  * an export loop
    `for i, ds in output_data.groupby('timestep'):`
    `    print(f'Exporting {i} data')`
    `    write_geotiff(dataset=ds, filename=f'geotiff_{output_name}_{i}.tif')`.

Rasters are opaque to the notebook, so they are a type parameter `α`.  Group
labels are modelled as the strings the f-string interpolation produces.  The
Python floats `0.0` and `1.0` of `tide_range` are exactly representable, so
they are modelled as rationals.  The dict `{'years': 5}` is modelled as an
association list.
-/

namespace Filmstrips

/-- The record of arguments the notebook passes to `run_filmstrip_app`,
in the source's positional order. -/
structure AcquisitionArgs where
  output_name : String
  time_range : String × String
  time_step : List (String × Nat)
  tide_range : Rat × Rat
  resolution : Int × Int
  max_cloud : Nat
  ls7_slc_off : Bool
  deriving Repr, DecidableEq

/-- The notebook's process-wide bindings visible to the cells we model:
the seven parameters and the `output_data` collection (a sequence of
(timestep-label, raster) groups as yielded by `groupby('timestep')`). -/
structure NotebookState (α : Type) where
  output_name : String
  time_range : String × String
  time_step : List (String × Nat)
  tide_range : Rat × Rat
  resolution : Int × Int
  max_cloud : Nat
  ls7_slc_off : Bool
  output_data : List (String × α)
  deriving Repr, DecidableEq

/-- The parameter-staging cell: seven straight-line assignments.
`output_name = 'example'`, `time_range = ('1988-01-01', '2017-12-31')`,
`time_step = \x7b'years': 5\x7d`, `tide_range = (0.0, 1.0)`,
`resolution = (-30, 30)`, `max_cloud = 50`, `ls7_slc_off = False`. -/
def parameterStagingCell {α : Type} (s : NotebookState α) : NotebookState α :=
  { s with
    output_name := "example"
    time_range := ("1988-01-01", "2017-12-31")
    time_step := [("years", 5)]
    tide_range := ((0 : Rat), (1 : Rat))
    resolution := ((-30 : Int), (30 : Int))
    max_cloud := 50
    ls7_slc_off := false }

/-- The argument list the call cell builds: the seven current bindings, read
in the order they appear in the call. -/
def acquisitionArgsOf {α : Type} (s : NotebookState α) : AcquisitionArgs :=
  { output_name := s.output_name
    time_range := s.time_range
    time_step := s.time_step
    tide_range := s.tide_range
    resolution := s.resolution
    max_cloud := s.max_cloud
    ls7_slc_off := s.ls7_slc_off }

/-- The call cell `output_data = run_filmstrip_app(...)`: passes the seven
bindings to the external helper (abstracted as `app`) and binds the returned
collection to `output_data`.  Also returns the argument record actually passed,
so theorems can speak about it. -/
def acquisitionCell {α : Type} (app : AcquisitionArgs → List (String × α))
    (s : NotebookState α) : NotebookState α × AcquisitionArgs :=
  let args := acquisitionArgsOf s
  ({ s with output_data := app args }, args)

/-- One writer invocation: `write_geotiff(dataset=ds, filename=...)`. -/
structure WriteCall (α : Type) where
  dataset : α
  filename : String
  deriving Repr, DecidableEq

/-- The writer call the loop body performs for a group `(i, ds)`:
`write_geotiff(dataset=ds, filename=f'geotiff_{output_name}_{i}.tif')`. -/
def writeCallOf {α : Type} (output_name : String) (g : String × α) : WriteCall α :=
  { dataset := g.2
    filename := "geotiff_" ++ output_name ++ "_" ++ g.1 ++ ".tif" }

/-- The export loop `for i, ds in output_data.groupby('timestep')`, consuming
the yielded groups in order and performing one writer call per group. -/
def exportLoop {α : Type} (output_name : String) :
    List (String × α) → List (WriteCall α)
  | [] => []
  | g :: rest => writeCallOf output_name g :: exportLoop output_name rest

/-- The export loop with a fallible writer (the notebook has no try/except):
returns the writer calls attempted, in order, and the first error raised, if
any.  When a call errors, the loop body never runs again, so no later group
is attempted. -/
def exportLoopE {α ε : Type} (writer : WriteCall α → Except ε Unit)
    (output_name : String) :
    List (String × α) → List (WriteCall α) × Option ε
  | [] => ([], none)
  | g :: rest =>
    let c := writeCallOf output_name g
    match writer c with
    | Except.error e => ([c], some e)
    | Except.ok _ =>
      let r := exportLoopE writer output_name rest
      (c :: r.1, r.2)

/-- The export-loop cell as a state transformer: it reads `output_name` and
`output_data`, rebinds nothing, and performs the writer calls of
`exportLoop`. -/
def exportCell {α : Type} (s : NotebookState α) :
    NotebookState α × List (WriteCall α) :=
  (s, exportLoop s.output_name s.output_data)

/-- Modelled from the spec: the rendering of the `time_step` mapping inside the
visualization file name.  The helper that fixes the exact rendering,
`run_filmstrip_app` in the repository's `Scripts/notebookapp_changefilmstrips.py`,
is not among the provided sources; the spec only writes the interpolated
`time_step` into the name, so we model the rendering as an explicit injection
of the mapping into a string. -/
def renderTimeStep (ts : List (String × Nat)) : String :=
  String.intercalate "_" (ts.map (fun p => p.1 ++ toString p.2))

/-- Modelled from the spec: `run_filmstrip_app` is defined in the repository's
`Scripts/notebookapp_changefilmstrips.py`, which is not among the provided
sources.  Per the spec it performs data retrieval, filtering and geomedian
compositing externally (abstracted here as the `composites` argument), renders
the filmstrip visualization and persists it under the name
`filmstrip_{output_name}_{date_string}_{time_step}.png` (the current date
abstracted as `date_string`), and returns the grouped composite collection.
The model returns the collection together with the persisted file name. -/
def run_filmstrip_app {α : Type} (composites : List (String × α))
    (date_string : String) (args : AcquisitionArgs) :
    List (String × α) × String :=
  (composites,
    "filmstrip_" ++ args.output_name ++ "_" ++ date_string ++ "_"
      ++ renderTimeStep args.time_step ++ ".png")

/-- Helper: the export loop yields exactly one call per group. -/
theorem exportLoop_length {α : Type} (output_name : String)
    (gs : List (String × α)) :
    (exportLoop output_name gs).length = gs.length := by
  induction gs with
  | nil => rfl
  | cons g rest ih => simp [exportLoop, ih]

/-- Helper: the k-th call of the export loop is the call for the k-th group. -/
theorem exportLoop_getElem? {α : Type} (output_name : String)
    (gs : List (String × α)) (k : Nat) :
    (exportLoop output_name gs)[k]? = (gs[k]?).map (writeCallOf output_name) := by
  induction gs generalizing k with
  | nil => simp [exportLoop]
  | cons g rest ih =>
    cases k with
    | zero => simp [exportLoop]
    | succ n => simpa [exportLoop] using ih n

/-- Helper: appending a fixed prefix and suffix around a string is injective. -/
theorem affix_injective (p q i j : String)
    (h : p ++ i ++ q = p ++ j ++ q) : i = j := by
  have hd : (p ++ i ++ q).data = (p ++ j ++ q).data := congrArg String.data h
  simp only [String.data_append] at hd
  rw [List.append_assoc, List.append_assoc] at hd
  have h1 := List.append_cancel_left hd
  have h2 := List.append_cancel_right h1
  exact String.ext h2

/-- C1: for every collection, the export loop performs exactly one writer call
per group yielded by grouping on the timestep key, in the yielded order, and
consumes the collection once: the call list has one entry per group and its
k-th entry is the call built from the k-th group. -/
theorem exportLoop_once_per_group_in_order {α : Type} (output_name : String)
    (gs : List (String × α)) :
    (exportLoop output_name gs).length = gs.length ∧
    ∀ k : Nat, (exportLoop output_name gs)[k]? =
      (gs[k]?).map (writeCallOf output_name) :=
  ⟨exportLoop_length output_name gs, fun k => exportLoop_getElem? output_name gs k⟩

/-- C2: the file name the export loop passes to the writer for the group at
position k with label i is exactly the string
geotiff_ ++ output_name ++ _ ++ i ++ .tif, a deterministic function of
`output_name` and the label only. -/
theorem exportLoop_filename_formula {α : Type} (output_name : String)
    (gs : List (String × α)) (k : Nat) (i : String) (ds : α)
    (h : gs[k]? = some (i, ds)) :
    ((exportLoop output_name gs)[k]?).map WriteCall.filename =
      some ("geotiff_" ++ output_name ++ "_" ++ i ++ ".tif") := by
  rw [exportLoop_getElem?, h]
  rfl

/-- Witness for C2 at a concrete collection and index. -/
theorem exportLoop_filename_formula_witness :
    ((exportLoop "example" [(("1988" : String), (7 : Nat))])[0]?).map
        WriteCall.filename =
      some ("geotiff_" ++ "example" ++ "_" ++ "1988" ++ ".tif") :=
  exportLoop_filename_formula "example" [("1988", 7)] 0 "1988" 7 rfl

/-- The six groups of the spec's concrete scenario: labels 1988, 1993, 1998,
2003, 2008, 2013 in that order (rasters modelled by distinct naturals). -/
def exampleGroups : List (String × Nat) :=
  [("1988", 0), ("1993", 1), ("1998", 2), ("2003", 3), ("2008", 4), ("2013", 5)]

/-- C3: with `output_name = "example"` and the six groups labelled 1988
through 2013, the export loop produces exactly 6 writer calls, named
geotiff_example_1988.tif through geotiff_example_2013.tif, in that order. -/
theorem exportLoop_concrete_scenario :
    (exportLoop "example" exampleGroups).length = 6 ∧
    (exportLoop "example" exampleGroups).map WriteCall.filename =
      ["geotiff_example_1988.tif", "geotiff_example_1993.tif",
       "geotiff_example_1998.tif", "geotiff_example_2003.tif",
       "geotiff_example_2008.tif", "geotiff_example_2013.tif"] :=
  ⟨rfl, by decide⟩

/-- C4: the values assigned by the parameter-staging cell equal the documented
defaults, and the required parameters equal the documented examples. -/
theorem parameterStagingCell_defaults {α : Type} (s : NotebookState α) :
    (parameterStagingCell s).tide_range = ((0 : Rat), (1 : Rat)) ∧
    (parameterStagingCell s).resolution = ((-30 : Int), (30 : Int)) ∧
    (parameterStagingCell s).max_cloud = 50 ∧
    (parameterStagingCell s).ls7_slc_off = false ∧
    (parameterStagingCell s).output_name = "example" ∧
    (parameterStagingCell s).time_range = ("1988-01-01", "2017-12-31") ∧
    (parameterStagingCell s).time_step = [("years", 5)] :=
  ⟨rfl, rfl, rfl, rfl, rfl, rfl, rfl⟩

/-- C5: starting from any notebook state, after the staging cell the call cell
passes the seven parameter fields into the acquisition call unchanged and in
the source's order, and the call leaves every parameter field of the state as
staged (no mutation between staging and the call). -/
theorem acquisition_args_round_trip {α : Type}
    (app : AcquisitionArgs → List (String × α)) (s : NotebookState α) :
    (acquisitionCell app (parameterStagingCell s)).2 =
      { output_name := "example"
        time_range := ("1988-01-01", "2017-12-31")
        time_step := [("years", 5)]
        tide_range := ((0 : Rat), (1 : Rat))
        resolution := ((-30 : Int), (30 : Int))
        max_cloud := 50
        ls7_slc_off := false } ∧
    acquisitionArgsOf (acquisitionCell app (parameterStagingCell s)).1 =
      (acquisitionCell app (parameterStagingCell s)).2 :=
  ⟨rfl, rfl⟩

/-- C6: if the writer errors on group g, the export loop attempts the calls
for the groups before g and the call for g itself, makes no call for any
group after g, and the error propagates (fail-fast, unhandled). -/
theorem exportLoopE_fail_fast {α ε : Type} (writer : WriteCall α → Except ε Unit)
    (output_name : String) (pre : List (String × α)) (g : String × α)
    (post : List (String × α)) (e : ε)
    (hpre : ∀ p ∈ pre, writer (writeCallOf output_name p) = Except.ok ())
    (hg : writer (writeCallOf output_name g) = Except.error e) :
    exportLoopE writer output_name (pre ++ g :: post) =
      (pre.map (writeCallOf output_name) ++ [writeCallOf output_name g], some e) := by
  induction pre with
  | nil => simp [exportLoopE, hg]
  | cons p rest ih =>
    have hp : writer (writeCallOf output_name p) = Except.ok () := hpre p (by simp)
    have hrest : ∀ q ∈ rest, writer (writeCallOf output_name q) = Except.ok () :=
      fun q hq => hpre q (by simp [hq])
    simp [exportLoopE, hp, ih hrest]

/-- A writer that fails exactly on the 1993 file name, for the C6 witness. -/
def failingWriter : WriteCall Nat → Except String Unit :=
  fun c =>
    if c.filename = "geotiff_example_1993.tif" then Except.error "write failure"
    else Except.ok ()

/-- Witness for C6: with groups 1988, 1993, 1998 and a writer failing on 1993,
the loop attempts 1988 and 1993 only and the error propagates. -/
theorem exportLoopE_fail_fast_witness :
    exportLoopE failingWriter "example"
        ([(("1988" : String), (0 : Nat))] ++ ("1993", 1) :: [("1998", 2)]) =
      (([(("1988" : String), (0 : Nat))]).map (writeCallOf "example") ++
        [writeCallOf "example" ("1993", 1)], some "write failure") :=
  exportLoopE_fail_fast failingWriter "example" [("1988", 0)] ("1993", 1)
    [("1998", 2)] "write failure"
    (by intro p hp; simp only [List.mem_singleton] at hp; subst hp; rfl)
    (by rfl)

/-- C7: the visualization artifact of the (spec-modelled) acquisition call is
persisted under filmstrip_ ++ output_name ++ _ ++ date_string ++ _ ++
rendered time_step ++ .png: a name determined by `output_name`, the current
date string and `time_step` alone — it does not depend on the returned
composites nor on any other parameter field. -/
theorem run_filmstrip_app_visualization_filename {α : Type}
    (composites other : List (String × α)) (date_string : String)
    (args : AcquisitionArgs) (tr : String × String) (tdr : Rat × Rat)
    (res : Int × Int) (mc : Nat) (slc : Bool) :
    (run_filmstrip_app composites date_string args).2 =
      "filmstrip_" ++ args.output_name ++ "_" ++ date_string ++ "_" ++
        renderTimeStep args.time_step ++ ".png" ∧
    (run_filmstrip_app composites date_string args).2 =
      (run_filmstrip_app other date_string args).2 ∧
    (run_filmstrip_app composites date_string
        { output_name := args.output_name, time_range := tr,
          time_step := args.time_step, tide_range := tdr, resolution := res,
          max_cloud := mc, ls7_slc_off := slc }).2 =
      (run_filmstrip_app composites date_string args).2 :=
  ⟨rfl, rfl, rfl⟩

/-- C8: on a collection yielding zero groups, the export loop makes no writer
call and completes normally (no error), for any writer. -/
theorem exportLoop_empty_collection {α ε : Type} (output_name : String)
    (writer : WriteCall α → Except ε Unit) :
    exportLoop output_name ([] : List (String × α)) = [] ∧
    exportLoopE writer output_name [] = ([], none) :=
  ⟨rfl, rfl⟩

/-- C9: for a fixed `output_name`, distinct group labels give distinct file
names: the export naming is injective in the label, so no export within a run
overwrites another group's file. -/
theorem exportLoop_filenames_injective {α : Type} (output_name : String)
    (i j : String) (a b : α) (hij : i ≠ j) :
    (writeCallOf output_name (i, a)).filename ≠
      (writeCallOf output_name (j, b)).filename := by
  intro h
  apply hij
  have h' : ("geotiff_" ++ output_name ++ "_") ++ i ++ ".tif" =
      ("geotiff_" ++ output_name ++ "_") ++ j ++ ".tif" := by
    simpa [writeCallOf, String.append_assoc] using h
  exact affix_injective _ _ _ _ h'

/-- Witness for C9 at concrete distinct labels. -/
theorem exportLoop_filenames_injective_witness :
    (writeCallOf "example" (("1988" : String), (0 : Nat))).filename ≠
      (writeCallOf "example" ("1993", 1)).filename :=
  exportLoop_filenames_injective "example" "1988" "1993" 0 1 (by decide)

/-- C10: the export-loop cell leaves the notebook state — the `output_data`
collection and every parameter binding — unchanged, and passes each group's
raster to the writer as-is. -/
theorem exportCell_frame {α : Type} (s : NotebookState α) :
    (exportCell s).1 = s ∧
    ∀ k : Nat, ((exportCell s).2[k]?).map WriteCall.dataset =
      (s.output_data[k]?).map Prod.snd := by
  refine ⟨rfl, fun k => ?_⟩
  show ((exportLoop s.output_name s.output_data)[k]?).map WriteCall.dataset = _
  rw [exportLoop_getElem?]
  cases s.output_data[k]? with
  | none => rfl
  | some g => rfl

end Filmstrips
